import Mathlib

/-!
Verification of the generic CRUD resource framework (play-api).

This file shallowly embeds the parts of the Go source that the verified
properties concern:

* `meta/base_resource.go` — the shared metadata contract (`BaseResource`)
  with its `Validate`, `SetStatus`, `BeforeCreate`, `BeforeUpdate` and
  `BeforeDelete` hooks;
* `apiv1/user.go` — the `User` resource with its domain validation and
  its `BeforeCreate`/`BeforeUpdate`/`BeforeDelete` overrides;
* the generic `DAO[T]` (`Create`, `Get`, `List`, `Update`, `Delete`),
  instantiated at `User` (the type registered by `main.go`) and at
  `BaseResource` (for statements about the contract-level hooks);
* the two HTTP registration paths: the `Router[T]` handlers in
  `internal/router.go` and the closure-based handlers installed by
  `RegisterResource` in the same package.

Modelling conventions:

* The SQLite store is a list of `(id, row)` pairs in insertion order
  (SQLite's default order by rowid, which coincides with insertion order
  here) together with the next auto-increment id.  GORM fires the
  resource's `BeforeCreate`/`BeforeUpdate`/`BeforeDelete` hook before the
  corresponding SQL statement; a hook error aborts the statement, so no
  write happens on the error path.  `Updates` with a struct value writes
  only the non-zero columns of the (hook-mutated) value, and `Model(x)`
  adds `x`'s primary key as a condition when it is non-zero.
* `uuid.New().String()` and `time.Now()` are external inputs; they are
  passed as explicit `newUid`/`now` parameters.  UUID strings are never
  empty, which appears as an explicit hypothesis where needed.
* `bcrypt.GenerateFromPassword(p, bcrypt.DefaultCost)` is an external
  collaborator; it is passed as a `hash : String → String` parameter
  (with `bcrypt.DefaultCost` in range, the Go call never returns an
  error, so the function is total).  That bcrypt hashes start with
  `"$2a$"` is a property of the collaborator and appears as a hypothesis.
* `CreatedAt`/`UpdatedAt` timestamps and the `Labels`/`Annotations` maps
  are not modelled: no verified property mentions them.
* Go `int` values (`ResourceVersion`, page, size) are modelled as `Int`;
  Go `uint` ids as `Nat` (the 64-bit wrap-around is unreachable for
  auto-increment ids and never relevant to the properties below).
-/

/-- Status block of a resource (`meta.ResourceStatus`): phase, message,
reason and the last transition instant (stamped by `SetStatus`). -/
structure ResourceStatus where
  phase : String
  message : String
  reason : String
  lastTransitionTime : Nat
deriving DecidableEq, Repr

/-- Type descriptor (`meta.TypeMeta`): kind and apiVersion strings. -/
structure TypeMeta where
  kind : String
  apiVersion : String
deriving DecidableEq, Repr

/-- Persisted object metadata (`meta.ObjectMeta`), restricted to the
fields the verified properties mention (timestamps and label/annotation
maps are omitted, see the header comment). -/
structure ObjectMeta where
  id : Nat
  uid : String
  resourceVersion : Int
  status : ResourceStatus
deriving DecidableEq, Repr

/-- The base type every resource embeds (`meta.BaseResource`). -/
structure BaseResource where
  typeMeta : TypeMeta
  objectMeta : ObjectMeta
deriving DecidableEq, Repr

/-- Promoted accessor, mirrors Go field promotion `b.Kind`. -/
def BaseResource.kind (b : BaseResource) : String :=
  b.typeMeta.kind

/-- Promoted accessor, mirrors Go field promotion `b.APIVersion`. -/
def BaseResource.apiVersion (b : BaseResource) : String :=
  b.typeMeta.apiVersion

/-- Promoted accessor, mirrors Go field promotion `b.ID`. -/
def BaseResource.id (b : BaseResource) : Nat :=
  b.objectMeta.id

/-- Promoted accessor, mirrors Go field promotion `b.UID`. -/
def BaseResource.uid (b : BaseResource) : String :=
  b.objectMeta.uid

/-- Promoted accessor, mirrors Go field promotion `b.ResourceVersion`. -/
def BaseResource.resourceVersion (b : BaseResource) : Int :=
  b.objectMeta.resourceVersion

/-- Promoted accessor, mirrors Go field promotion `b.Status`. -/
def BaseResource.status (b : BaseResource) : ResourceStatus :=
  b.objectMeta.status

/-- `BaseResource.SetStatus`: unconditionally overwrites the four status
fields, stamping the current time (`now` stands for `time.Now()`). -/
def BaseResource.setStatus (b : BaseResource) (phase message reason : String)
    (now : Nat) : BaseResource :=
  { b with objectMeta.status :=
      { phase := phase, message := message, reason := reason,
        lastTransitionTime := now } }

/-- `BaseResource.Validate`: errors when `Kind` or `APIVersion` is empty,
in that order; succeeds otherwise. -/
def BaseResource.validate (b : BaseResource) : Except String Unit :=
  if b.kind = "" then .error "kind is required"
  else if b.apiVersion = "" then .error "apiVersion is required"
  else .ok ()

/-- `BaseResource.BeforeCreate`: assign `UID` if empty (`newUid` stands
for `uuid.New().String()`), set `ResourceVersion` to 1 if zero, set the
status to the "Pending" default if the phase is unset, then validate.
An error return aborts the surrounding INSERT. -/
def BaseResource.beforeCreate (b : BaseResource) (newUid : String)
    (now : Nat) : Except String BaseResource :=
  let b := if b.uid = "" then { b with objectMeta.uid := newUid } else b
  let b := if b.resourceVersion = 0 then
      { b with objectMeta.resourceVersion := 1 } else b
  let b := if b.status.phase = "" then
      b.setStatus "Pending" "Resource is being created" "" now else b
  match b.validate with
  | .error e => .error e
  | .ok _ => .ok b

/-- `BaseResource.BeforeUpdate`: increments `ResourceVersion`, then
validates.  An error return aborts the surrounding UPDATE. -/
def BaseResource.beforeUpdate (b : BaseResource) : Except String BaseResource :=
  let b := { b with objectMeta.resourceVersion := b.resourceVersion + 1 }
  match b.validate with
  | .error e => .error e
  | .ok _ => .ok b

/-- `BaseResource.BeforeDelete`: contract-level no-op. -/
def BaseResource.beforeDelete (b : BaseResource) : Except String BaseResource :=
  .ok b

/-- The `apiv1.User` resource: embedded `BaseResource` plus the domain
fields. -/
structure User where
  base : BaseResource
  username : String
  email : String
  password : String
  fullName : String
  isActive : Bool
deriving DecidableEq, Repr

/-- Promoted accessor, mirrors Go field promotion `u.Kind`. -/
def User.kind (u : User) : String :=
  u.base.typeMeta.kind

/-- Promoted accessor, mirrors Go field promotion `u.APIVersion`. -/
def User.apiVersion (u : User) : String :=
  u.base.typeMeta.apiVersion

/-- Promoted accessor, mirrors Go field promotion `u.ID`. -/
def User.id (u : User) : Nat :=
  u.base.objectMeta.id

/-- Promoted accessor, mirrors Go field promotion `u.UID`. -/
def User.uid (u : User) : String :=
  u.base.objectMeta.uid

/-- Promoted accessor, mirrors Go field promotion `u.ResourceVersion`. -/
def User.resourceVersion (u : User) : Int :=
  u.base.objectMeta.resourceVersion

/-- Promoted accessor, mirrors Go field promotion `u.Status`. -/
def User.status (u : User) : ResourceStatus :=
  u.base.objectMeta.status

/-- Character class `[a-zA-Z0-9._%+-]` of the local part of the email
pattern in `User.Validate`. -/
def isEmailLocalChar (c : Char) : Bool :=
  c.isAlpha || c.isDigit || c = '.' || c = '_' || c = '%' || c = '+' || c = '-'

/-- Character class `[a-zA-Z0-9.-]` of the domain part of the email
pattern in `User.Validate`. -/
def isEmailDomainChar (c : Char) : Bool :=
  c.isAlpha || c.isDigit || c = '.' || c = '-'

/-- Splits a character list at its last `'.'`, returning the part before
and the part after; `none` when no dot occurs. -/
def lastDotSplit : List Char → Option (List Char × List Char)
  | [] => none
  | c :: cs =>
    match lastDotSplit cs with
    | some (pre, suf) => some (c :: pre, suf)
    | none => if c = '.' then some ([], cs) else none

/-- Matcher for `[a-zA-Z0-9.-]+\.[a-zA-Z]{2,}` anchored to the end of the
string.  A match at some dot forces everything after that dot to be
alphabetic, hence dot-free, so the chosen dot is the last one; splitting
at the last dot is therefore equivalent to the regex. -/
def emailDomainMatch (d : List Char) : Bool :=
  match lastDotSplit d with
  | some (pre, tld) =>
    !pre.isEmpty && pre.all isEmailDomainChar &&
      decide (2 ≤ tld.length) && tld.all Char.isAlpha
  | none => false

/-- The anchored pattern `^[a-zA-Z0-9._%+-]+@[a-zA-Z0-9.-]+\.[a-zA-Z]{2,}$`
used by `User.Validate`.  Neither character class contains `'@'`, so a
match forces exactly one `'@'`; splitting on `'@'` is equivalent. -/
def emailMatch (s : String) : Bool :=
  match s.toList.splitOn '@' with
  | [localPart, domainPart] =>
    !localPart.isEmpty && localPart.all isEmailLocalChar &&
      emailDomainMatch domainPart
  | _ => false

/-- `strings.HasPrefix` as the hooks use it (byte-level prefix;
equivalent to character-list prefix since the `"$2a$"` pattern is
ASCII). -/
def strStartsWith (p s : String) : Bool :=
  p.toList.isPrefixOf s.toList

/-- `User.Validate`: base validation first, then username presence and
minimum length (Go `len` counts UTF-8 bytes, hence `utf8ByteSize`),
email presence and format, password presence. -/
def User.validate (u : User) : Except String Unit :=
  match u.base.validate with
  | .error e => .error e
  | .ok _ =>
    if u.username = "" then .error "username is required"
    else if u.username.utf8ByteSize < 3 then
      .error "username must be at least 3 characters long"
    else if u.email = "" then .error "email is required"
    else if !emailMatch u.email then .error "invalid email format"
    else if u.password = "" then .error "password is required"
    else .ok ()

/-- `User.BeforeCreate`: force `Kind`/`APIVersion`, stamp the "Active"
status, hash the password unless it already starts with `"$2a$"`, then
run the embedded `BaseResource.BeforeCreate` (which, by Go method
resolution, calls the base `Validate`, not `User.Validate`). -/
def User.beforeCreate (u : User) (hash : String → String) (newUid : String)
    (now : Nat) : Except String User :=
  let u := { u with base.typeMeta.kind := "User",
                    base.typeMeta.apiVersion := "v1" }
  let b0 := u.base.setStatus "Active" "User created successfully" "Created" now
  let u := { u with base := b0 }
  let u := if strStartsWith "$2a$" u.password then u
           else { u with password := hash u.password }
  match u.base.beforeCreate newUid now with
  | .error e => .error e
  | .ok b => .ok { u with base := b }

/-- `User.BeforeUpdate`: force `Kind`/`APIVersion`, stamp the "Active"
status, hash the password unless it already starts with `"$2a$"`, then
run the embedded `BaseResource.BeforeUpdate`. -/
def User.beforeUpdate (u : User) (hash : String → String)
    (now : Nat) : Except String User :=
  let u := { u with base.typeMeta.kind := "User",
                    base.typeMeta.apiVersion := "v1" }
  let b0 := u.base.setStatus "Active" "User updated successfully" "Updated" now
  let u := { u with base := b0 }
  let u := if strStartsWith "$2a$" u.password then u
           else { u with password := hash u.password }
  match u.base.beforeUpdate with
  | .error e => .error e
  | .ok b => .ok { u with base := b }

/-- `User.BeforeDelete`: stamp the "Deleted" status, then the base no-op. -/
def User.beforeDelete (u : User) (now : Nat) : Except String User :=
  let b0 := u.base.setStatus "Deleted" "User deleted successfully" "Deleted" now
  let u := { u with base := b0 }
  match u.base.beforeDelete with
  | .error e => .error e
  | .ok b => .ok { u with base := b }

/-- Errors surfaced by the data-access layer: `gorm.ErrRecordNotFound`,
or any other error value (hook/validation errors, SQL faults). -/
inductive DBError where
  | recordNotFound
  | other (msg : String)
deriving DecidableEq, Repr

deriving instance DecidableEq for Except

/-- The backing SQLite table for one resource type: rows in insertion
order (which is also rowid order) and the next auto-increment id. -/
structure Store (α : Type) where
  rows : List (Nat × α)
  nextId : Nat := 1
deriving DecidableEq, Repr

/-- Row lookup by primary key (SQL `WHERE id = ?` with `First`). -/
def Store.find? {α : Type} (s : Store α) (id : Nat) : Option α :=
  (s.rows.find? (fun r => r.1 = id)).map (fun r => r.2)

/-- The zero value of `meta.BaseResource` (Go `var b BaseResource`). -/
def zeroBase : BaseResource :=
  { typeMeta := { kind := "", apiVersion := "" },
    objectMeta := { id := 0, uid := "", resourceVersion := 0,
                    status := { phase := "", message := "", reason := "",
                                lastTransitionTime := 0 } } }

/-- The zero value of `apiv1.User` (Go `var resource User`). -/
def zeroUser : User :=
  { base := zeroBase, username := "", email := "", password := "",
    fullName := "", isActive := false }

/-- The row write of the INSERT step at a determined primary key:
enforces the `unique` column constraints on `username` and `email` (and
the primary key) declared by the gorm tags, then appends the row. -/
def insertUserRowAt (s : Store User) (u1 : User) (id : Nat) :
    Store User × Except DBError User :=
  if s.rows.any (fun r => decide (r.1 = id) ||
      decide (r.2.username = u1.username) || decide (r.2.email = u1.email))
  then (s, .error (.other "UNIQUE constraint failed"))
  else
    let u2 := { u1 with base.objectMeta.id := id }
    ({ rows := s.rows ++ [(id, u2)], nextId := max s.nextId (id + 1) },
     .ok u2)

/-- The INSERT step of `DAO.Create` at `T = User`: assigns the
auto-increment id when the primary key is zero, then the row write. -/
def insertUserRow (s : Store User) (u1 : User) :
    Store User × Except DBError User :=
  insertUserRowAt s u1 (if u1.id = 0 then s.nextId else u1.id)

/-- `DAO.Create` at `T = User` (`d.db.Create(resource)`): GORM fires
`User.BeforeCreate`, then runs the INSERT (`insertUserRow`).  A hook
error aborts the INSERT, so the store is unchanged on every error
path. -/
def daoCreateUser (s : Store User) (u : User) (hash : String → String)
    (newUid : String) (now : Nat) : Store User × Except DBError User :=
  match u.beforeCreate hash newUid now with
  | .error e => (s, .error (.other e))
  | .ok u1 => insertUserRow s u1

/-- The INSERT step of `DAO.Create` at a bare `BaseResource` (no extra
unique columns beyond the primary key). -/
def insertBaseRow (s : Store BaseResource) (b1 : BaseResource) :
    Store BaseResource × Except DBError BaseResource :=
  let id := if b1.id = 0 then s.nextId else b1.id
  if s.rows.any (fun r => decide (r.1 = id))
  then (s, .error (.other "UNIQUE constraint failed"))
  else
    let b2 := { b1 with objectMeta.id := id }
    ({ rows := s.rows ++ [(id, b2)], nextId := max s.nextId (id + 1) },
     .ok b2)

/-- `DAO.Create` at a resource whose hooks are the contract-level ones:
the contract hook, then the INSERT. -/
def daoCreateBase (s : Store BaseResource) (b : BaseResource)
    (newUid : String) (now : Nat) :
    Store BaseResource × Except DBError BaseResource :=
  match b.beforeCreate newUid now with
  | .error e => (s, .error (.other e))
  | .ok b1 => insertBaseRow s b1

/-- `DAO.Get` (`d.db.First(&resource, id)`): `gorm.ErrRecordNotFound`
when no row has the id. -/
def daoGetUser (s : Store User) (id : Nat) : Except DBError User :=
  match s.find? id with
  | none => .error .recordNotFound
  | some u => .ok u

/-- The string-valued columns of the `users` table that the exact-match
filter of `DAO.List` can mention in this model.  The numeric, boolean
and timestamp columns are left out (a query-string filter compares them
through SQLite's coercion rules, which no verified property concerns);
a name that is not a column of the table makes the SQL query fail. -/
def userColumn (u : User) : String → Option String
  | "username" => some u.username
  | "email" => some u.email
  | "password" => some u.password
  | "full_name" => some u.fullName
  | "kind" => some u.kind
  | "api_version" => some u.apiVersion
  | "uid" => some u.uid
  | _ => none

/-- Column names `userColumn` resolves. -/
def knownUserColumn (k : String) : Bool :=
  k = "username" || k = "email" || k = "password" || k = "full_name" ||
    k = "kind" || k = "api_version" || k = "uid"

/-- One row against an exact-match filter (`query.Where(filter)` builds a
conjunction of `column = value` conditions). -/
def userMatchesFilter (u : User) (f : List (String × String)) : Bool :=
  f.all (fun kv => decide (userColumn u kv.1 = some kv.2))

/-- GORM `Offset((page-1)*pageSize).Limit(pageSize)` executed by SQLite:
GORM emits the LIMIT clause only when the limit is non-negative and the
OFFSET clause only when the offset is positive, and SQLite rejects an
OFFSET clause that is not preceded by a LIMIT clause — so a positive
offset combined with a negative page size is a store error. -/
def gormPage (l : List User) (page pageSize : Int) :
    Except DBError (List User) :=
  let offset := (page - 1) * pageSize
  if pageSize < 0 then
    if 0 < offset then .error (.other "near OFFSET: syntax error")
    else .ok l
  else
    .ok (if 0 < offset then (l.drop offset.toNat).take pageSize.toNat
         else l.take pageSize.toNat)

/-- `DAO.List`: counts the rows matching the filter (a query without
offset/limit, so the total ignores pagination and cannot hit the OFFSET
error), then fetches the requested page of them; `nil` filter applies no
condition.  A fetch error (unknown filter column, or the degenerate
OFFSET-without-LIMIT combination) is surfaced to the caller. -/
def daoListUser (s : Store User) (page pageSize : Int)
    (filter : Option (List (String × String))) :
    Except DBError (List User × Int) :=
  match filter with
  | some f =>
    if f.all (fun kv => knownUserColumn kv.1) then
      let hits := s.rows.filter (fun r => userMatchesFilter r.2 f)
      let matching := hits.map (fun r => r.2)
      match gormPage matching page pageSize with
      | .error e => .error e
      | .ok items => .ok (items, (matching.length : Int))
    else .error (.other "no such column")
  | none =>
    let matching := s.rows.map (fun r => r.2)
    match gormPage matching page pageSize with
    | .error e => .error e
    | .ok items => .ok (items, (matching.length : Int))

/-- Non-zero-column merge of GORM `Updates` with a struct value: a
zero-valued field of the submitted struct is skipped, keeping the
persisted value; primary keys are never written. -/
def mergeUser (old sub : User) : User :=
  { base :=
      { typeMeta :=
          { kind := if sub.kind = "" then old.kind else sub.kind,
            apiVersion := if sub.apiVersion = "" then old.apiVersion
                          else sub.apiVersion },
        objectMeta :=
          { id := old.base.objectMeta.id,
            uid := if sub.uid = "" then old.uid else sub.uid,
            resourceVersion := if sub.resourceVersion = 0
                               then old.resourceVersion
                               else sub.resourceVersion,
            status :=
              { phase := if sub.status.phase = "" then old.status.phase
                         else sub.status.phase,
                message := if sub.status.message = "" then old.status.message
                           else sub.status.message,
                reason := if sub.status.reason = "" then old.status.reason
                          else sub.status.reason,
                lastTransitionTime :=
                  if sub.status.lastTransitionTime = 0
                  then old.status.lastTransitionTime
                  else sub.status.lastTransitionTime } } },
    username := if sub.username = "" then old.username else sub.username,
    email := if sub.email = "" then old.email else sub.email,
    password := if sub.password = "" then old.password else sub.password,
    fullName := if sub.fullName = "" then old.fullName else sub.fullName,
    isActive := if sub.isActive then true else old.isActive }

/-- The WHERE condition of the UPDATE step of `DAO.Update`
(`d.db.Model(resource).Where("id = ?", id).Updates(resource)`): a row
matches when it carries the explicit `id` and, when the hook-mutated
`resource`'s primary key is non-zero, also the primary-key condition
contributed by `Model(resource)`.  The UNIQUE(username/email) column
constraints are not modelled on the UPDATE paths (here and in the
`RegisterResource` PUT handler's `Save`): no verified property concerns
an update that rewrites a unique column to a value held by another
row. -/
def updCond (id : Nat) (sub1 : User) (r : Nat × User) : Bool :=
  decide (r.1 = id ∧ (sub1.id = 0 ∨ sub1.id = r.1))

/-- The UPDATE row write (see `daoUpdateUser` below for the SQL it
stands for): writes the non-zero columns of `sub1` over every row
matching `updCond`; zero rows affected is `gorm.ErrRecordNotFound`. -/
def applyUserUpdate (s : Store User) (id : Nat) (sub1 : User) :
    Store User × Except DBError Unit :=
  if s.rows.countP (updCond id sub1) = 0 then (s, .error .recordNotFound)
  else
    let written := s.rows.map
      (fun r => if updCond id sub1 r then (r.1, mergeUser r.2 sub1) else r)
    ({ s with rows := written }, .ok ())

/-- `DAO.Update`: the `User.BeforeUpdate` hook, then the UPDATE
statement (`applyUserUpdate`); a hook error aborts the UPDATE. -/
def daoUpdateUser (s : Store User) (id : Nat) (sub : User)
    (hash : String → String) (now : Nat) :
    Store User × Except DBError Unit :=
  match sub.beforeUpdate hash now with
  | .error e => (s, .error (.other e))
  | .ok sub1 => applyUserUpdate s id sub1

/-- `DAO.Delete` (`d.db.Delete(&resource, id)` on a zero value): GORM
fires `User.BeforeDelete` on the zero value, then deletes the rows with
the id.  Zero rows affected is `gorm.ErrRecordNotFound`; every error
path leaves the store unchanged. -/
def daoDeleteUser (s : Store User) (id : Nat) (now : Nat) :
    Store User × Except DBError Unit :=
  match zeroUser.beforeDelete now with
  | .error e => (s, .error (.other e))
  | .ok _ =>
    if s.rows.countP (fun r => decide (r.1 = id)) = 0
    then (s, .error .recordNotFound)
    else ({ s with rows := s.rows.filter (fun r => !decide (r.1 = id)) },
          .ok ())

/-- Decimal digit run of `strconv.ParseUint(s, 10, _)`: consumes all
characters, failing on any non-digit. -/
def parseDigits : List Char → Nat → Option Nat
  | [], acc => some acc
  | c :: cs, acc =>
    if c.isDigit then parseDigits cs (10 * acc + (c.toNat - 48)) else none

/-- `strconv.ParseUint(s, 10, bitSize)`: no sign, at least one digit,
value below `2 ^ bitSize` (the out-of-range case is an error, which the
handlers treat like a syntax error). -/
def parseUint (s : String) (bitSize : Nat) : Option Nat :=
  match s.toList with
  | [] => none
  | cs =>
    match parseDigits cs 0 with
    | none => none
    | some n => if n < 2 ^ bitSize then some n else none

/-- `strconv.Atoi` as the list handlers consume it (`v, _ := ...`): the
parsed value for a well-formed optionally-signed decimal, the clamped
64-bit bound on range error, and 0 on a syntax error (the handlers drop
the error). -/
def atoiOr0 (s : String) : Int :=
  let signed : Int × List Char :=
    match s.toList with
    | '+' :: cs => (1, cs)
    | '-' :: cs => (-1, cs)
    | cs => (1, cs)
  match signed.2 with
  | [] => 0
  | cs =>
    match parseDigits cs 0 with
    | none => 0
    | some n =>
      let v : Int := signed.1 * n
      if v < -(2 ^ 63) then -(2 ^ 63)
      else if (2 ^ 63) - 1 < v then (2 ^ 63) - 1
      else v

/-- First value of a query key, or the default when the key is absent
(gin `c.DefaultQuery`); `url.Values` never maps a present key to an
empty list, `headD` covers the degenerate case. -/
def queryValue (query : List (String × List String)) (key dflt : String) :
    String :=
  match query.find? (fun kv => decide (kv.1 = key)) with
  | some kv => kv.2.headD ""
  | none => dflt

/-- `Router.Create`: decode the body (`none` models a failed
`ShouldBindJSON`, including its binding-tag validation), run the
`Validator` capability — `*User` implements it, so `User.Validate` runs
— then `dao.Create`; decode/validation errors are 400, a create error is
500.  Returns the response status and the resulting store. -/
def routerCreateU (s : Store User) (body : Option User)
    (hash : String → String) (newUid : String) (now : Nat) :
    Nat × Store User :=
  match body with
  | none => (400, s)
  | some resource =>
    match resource.validate with
    | .error _ => (400, s)
    | .ok _ =>
      let res := daoCreateUser s resource hash newUid now
      match res.2 with
      | .error _ => (500, res.1)
      | .ok _ => (201, res.1)

/-- `Router.List`: reads `page`/`size` (defaults 1/10, parse errors
ignored, yielding 0) and calls `dao.List` with a `nil` filter — the
other query parameters are not consulted.  Success is 200 with the bare
item array (a nil slice is replaced by an empty one). -/
def routerListU (s : Store User) (query : List (String × List String)) :
    Nat × Option (List User) :=
  let page := atoiOr0 (queryValue query "page" "1")
  let pageSize := atoiOr0 (queryValue query "size" "10")
  match daoListUser s page pageSize none with
  | .error _ => (500, none)
  | .ok res => (200, some res.1)

/-- `Router.Get`: 64-bit id parse (400 on failure), then `dao.Get`
(404 for `gorm.ErrRecordNotFound`, 500 otherwise). -/
def routerGetU (s : Store User) (idSeg : String) : Nat × Option User :=
  match parseUint idSeg 64 with
  | none => (400, none)
  | some id =>
    match daoGetUser s id with
    | .error .recordNotFound => (404, none)
    | .error _ => (500, none)
    | .ok u => (200, some u)

/-- `Router.Update`: 64-bit id parse (400), body decode (400), then
`dao.Update` (404 for `gorm.ErrRecordNotFound`, 500 otherwise, 200 on
success).  No explicit `Validate` call on this path. -/
def routerUpdateU (s : Store User) (idSeg : String) (body : Option User)
    (hash : String → String) (now : Nat) : Nat × Store User :=
  match parseUint idSeg 64 with
  | none => (400, s)
  | some id =>
    match body with
    | none => (400, s)
    | some resource =>
      let res := daoUpdateUser s id resource hash now
      match res.2 with
      | .error .recordNotFound => (404, res.1)
      | .error _ => (500, res.1)
      | .ok _ => (200, res.1)

/-- `Router.Delete`: 64-bit id parse (400), then `dao.Delete` (404 for
`gorm.ErrRecordNotFound`, 500 otherwise, 204 on success). -/
def routerDeleteU (s : Store User) (idSeg : String) (now : Nat) :
    Nat × Store User :=
  match parseUint idSeg 64 with
  | none => (400, s)
  | some id =>
    let res := daoDeleteUser s id now
    match res.2 with
    | .error .recordNotFound => (404, res.1)
    | .error _ => (500, res.1)
    | .ok _ => (204, res.1)

/-- `internal.ListResponse` instantiated at `User`. -/
structure ListResponse where
  items : List User
  total : Int
  page : Int
  size : Int
deriving DecidableEq, Repr

/-- The `RegisterResource` POST handler: decode the body, then
`dao.Transaction(tx.Create(&obj))` — no explicit `Validate` call; any
create error (hook validation included) is a 500, success a 201.  The
transaction rolls back on error, leaving the store unchanged. -/
def registerCreateU (s : Store User) (body : Option User)
    (hash : String → String) (newUid : String) (now : Nat) :
    Nat × Store User :=
  match body with
  | none => (400, s)
  | some obj =>
    let res := daoCreateUser s obj hash newUid now
    match res.2 with
    | .error _ => (500, res.1)
    | .ok _ => (201, res.1)

/-- The `RegisterResource` GET-by-id handler: 32-bit id parse (400),
then `dao.Get` (404/500). -/
def registerGetU (s : Store User) (idSeg : String) : Nat × Option User :=
  match parseUint idSeg 32 with
  | none => (400, none)
  | some id =>
    match daoGetUser s id with
    | .error .recordNotFound => (404, none)
    | .error _ => (500, none)
    | .ok u => (200, some u)

/-- Exact-match filters of the `RegisterResource` list handler: every
query key except `page` and `size`, each bound to its first value. -/
def filtersOfQuery (query : List (String × List String)) :
    List (String × String) :=
  (query.filter (fun kv => !decide (kv.1 = "page") && !decide (kv.1 = "size"))).map
    (fun kv => (kv.1, kv.2.headD ""))

/-- The `RegisterResource` list handler: reads `page`/`size` like
`Router.List`, passes the remaining query parameters to `dao.List` as
exact-match filters, and answers 200 with the enveloped
`{items, total, page, size}` response (500 on a store fault). -/
def registerListU (s : Store User) (query : List (String × List String)) :
    Nat × Option ListResponse :=
  let page := atoiOr0 (queryValue query "page" "1")
  let pageSize := atoiOr0 (queryValue query "size" "10")
  match daoListUser s page pageSize (some (filtersOfQuery query)) with
  | .error _ => (500, none)
  | .ok res =>
    (200, some { items := res.1, total := res.2, page := page,
                 size := pageSize })

/-- The `RegisterResource` PUT handler: 32-bit id parse (400),
`db.First` (404/500), decode-into-the-fetched-row (400 on failure;
`bodyMerge` models `ShouldBindJSON` overwriting the fields present in
the body), then `dao.Transaction(tx.Save(&obj))`: `User.BeforeUpdate`
fires and `Save` writes every column of the row with `obj`'s primary
key; a hook error rolls the transaction back into a 500. -/
def registerUpdateU (s : Store User) (idSeg : String)
    (bodyMerge : Option (User → User)) (hash : String → String)
    (now : Nat) : Nat × Store User :=
  match parseUint idSeg 32 with
  | none => (400, s)
  | some id =>
    match daoGetUser s id with
    | .error .recordNotFound => (404, s)
    | .error _ => (500, s)
    | .ok obj =>
      match bodyMerge with
      | none => (400, s)
      | some decodeInto =>
        match (decodeInto obj).beforeUpdate hash now with
        | .error _ => (500, s)
        | .ok obj1 =>
          let written := s.rows.map
            (fun r => if r.1 = obj1.id then (r.1, obj1) else r)
          (200, { s with rows := written })

/-- The `RegisterResource` DELETE handler: 32-bit id parse (400), then
`dao.Transaction(tx.Delete(new(T), id))`.  Unlike `DAO.Delete`, this
path never checks rows-affected, so an absent id still answers 204. -/
def registerDeleteU (s : Store User) (idSeg : String) (now : Nat) :
    Nat × Store User :=
  match parseUint idSeg 32 with
  | none => (400, s)
  | some id =>
    match zeroUser.beforeDelete now with
    | .error _ => (500, s)
    | .ok _ =>
      (204, { s with rows := s.rows.filter (fun r => !decide (r.1 = id)) })

/-- The rows matching a filter, in store order (specification-side
helper for the list properties). -/
def matchingUsers (s : Store User) (f : List (String × String)) :
    List User :=
  (s.rows.filter (fun r => userMatchesFilter r.2 f)).map (fun r => r.2)

/-- All rows in store order (specification-side helper). -/
def allUsers (s : Store User) : List User :=
  s.rows.map (fun r => r.2)

/-- The offset/limit slice a well-formed page request denotes
(specification-side helper). -/
def pageSlice (l : List User) (page pageSize : Int) : List User :=
  (l.drop ((page - 1) * pageSize).toNat).take pageSize.toNat

/-- The rows `DAO.List` ranges over for a given optional filter
(specification-side helper). -/
def listedUsers (s : Store User)
    (f : Option (List (String × String))) : List User :=
  match f with
  | none => allUsers s
  | some fs => matchingUsers s fs

/-- The persisted `resourceVersion` of the row with a given id
(specification-side helper). -/
def rvAt (s : Store User) (id : Nat) : Option Int :=
  (s.find? id).map (fun u => u.resourceVersion)

/-- Stand-in bcrypt hash function for concrete evaluations: constant
output with the bcrypt prefix. -/
def hash0 : String → String := fun _ => "$2a$stubhash"

/-- Concrete persisted user (id 1, resourceVersion 5). -/
def uAlice : User :=
  { base := { typeMeta := { kind := "User", apiVersion := "v1" },
              objectMeta := { id := 1, uid := "uid-alice",
                              resourceVersion := 5,
                              status := { phase := "Active", message := "",
                                          reason := "",
                                          lastTransitionTime := 3 } } },
    username := "alice", email := "alice@example.com",
    password := "$2a$alice", fullName := "", isActive := true }

/-- Concrete persisted user (id 2, resourceVersion 1). -/
def uBob : User :=
  { base := { typeMeta := { kind := "User", apiVersion := "v1" },
              objectMeta := { id := 2, uid := "uid-bob",
                              resourceVersion := 1,
                              status := { phase := "Active", message := "",
                                          reason := "",
                                          lastTransitionTime := 4 } } },
    username := "bob", email := "bob@example.com",
    password := "$2a$bob", fullName := "", isActive := true }

/-- Concrete store holding `uAlice` and `uBob`. -/
def storeAB : Store User := { rows := [(1, uAlice), (2, uBob)], nextId := 3 }

/-- Update payload whose `resourceVersion` is 0 (a client that does not
echo the persisted version), targeting `uAlice`'s row. -/
def subVersionZero : User :=
  { base := { typeMeta := { kind := "User", apiVersion := "v1" },
              objectMeta := { id := 0, uid := "", resourceVersion := 0,
                              status := { phase := "", message := "",
                                          reason := "",
                                          lastTransitionTime := 0 } } },
    username := "alice", email := "alice@example.com",
    password := "$2a$alice", fullName := "", isActive := true }

/-- Create payload that passes the gin binding tags (username, email and
password present, email well-formed) and carries a populated type
descriptor, yet fails `User.Validate`: the username has fewer than 3
characters. -/
def uShortName : User :=
  { base := { typeMeta := { kind := "User", apiVersion := "v1" },
              objectMeta := zeroBase.objectMeta },
    username := "ab", email := "ab@example.com",
    password := "pw123456", fullName := "", isActive := false }

/-- The empty store. -/
def emptyStore : Store User := { rows := [], nextId := 1 }

/-- Fresh contract-level resource as a caller constructs it: kind and
apiVersion populated, everything server-managed still zero. -/
def bFresh : BaseResource :=
  { typeMeta := { kind := "Widget", apiVersion := "v1" },
    objectMeta := { id := 0, uid := "", resourceVersion := 0,
                    status := { phase := "", message := "", reason := "",
                                lastTransitionTime := 0 } } }

/-- Helper lemma: `User.BeforeUpdate` always succeeds (it forces `Kind`
and `APIVersion` before the embedded validation) and its output is the
input with the type descriptor forced, the status stamped, the password
hashed unless already bcrypt-prefixed, and the version incremented. -/
theorem userBeforeUpdate_spec (u : User) (hash : String → String) (now : Nat) :
    u.beforeUpdate hash now = .ok
      { base := { typeMeta := { kind := "User", apiVersion := "v1" },
                  objectMeta := { id := u.id, uid := u.uid,
                                  resourceVersion := u.resourceVersion + 1,
                                  status := { phase := "Active",
                                              message := "User updated successfully",
                                              reason := "Updated",
                                              lastTransitionTime := now } } },
        username := u.username, email := u.email,
        password := if strStartsWith "$2a$" u.password then u.password
                    else hash u.password,
        fullName := u.fullName, isActive := u.isActive } := by
  cases hp : strStartsWith "$2a$" u.password <;>
    simp [User.beforeUpdate, BaseResource.beforeUpdate, BaseResource.setStatus,
      BaseResource.validate, BaseResource.kind, BaseResource.apiVersion,
      BaseResource.resourceVersion, User.id, User.uid, User.resourceVersion,
      hp]

/-- Helper lemma: `User.BeforeCreate` always succeeds; it forces the
type descriptor, stamps the "Active" status (so the contract hook's
"Pending" default never applies), hashes an unhashed password, assigns
`newUid` exactly when the uid is empty and version 1 exactly when the
version is zero. -/
theorem userBeforeCreate_spec (u : User) (hash : String → String)
    (newUid : String) (now : Nat) :
    u.beforeCreate hash newUid now = .ok
      { base := { typeMeta := { kind := "User", apiVersion := "v1" },
                  objectMeta := { id := u.id,
                                  uid := if u.uid = "" then newUid else u.uid,
                                  resourceVersion :=
                                    if u.resourceVersion = 0 then 1
                                    else u.resourceVersion,
                                  status := { phase := "Active",
                                              message := "User created successfully",
                                              reason := "Created",
                                              lastTransitionTime := now } } },
        username := u.username, email := u.email,
        password := if strStartsWith "$2a$" u.password then u.password
                    else hash u.password,
        fullName := u.fullName, isActive := u.isActive } := by
  cases hp : strStartsWith "$2a$" u.password <;>
    cases hu : decide (u.uid = "") <;>
    cases hv : decide (u.resourceVersion = 0) <;>
    simp_all [User.beforeCreate, BaseResource.beforeCreate,
      BaseResource.setStatus, BaseResource.validate, BaseResource.kind,
      BaseResource.apiVersion, BaseResource.resourceVersion, BaseResource.uid,
      BaseResource.status, User.id, User.uid, User.resourceVersion]

/-- Helper lemma: closed form of `BaseResource.BeforeCreate` — the
defaulted record on success, the (unchanged) validation error on
failure. -/
theorem baseBeforeCreate_spec (b : BaseResource) (newUid : String) (now : Nat) :
    b.beforeCreate newUid now =
      (if b.kind = "" then .error "kind is required"
       else if b.apiVersion = "" then .error "apiVersion is required"
       else .ok
        { typeMeta := b.typeMeta,
          objectMeta :=
            { id := b.id,
              uid := if b.uid = "" then newUid else b.uid,
              resourceVersion := if b.resourceVersion = 0 then 1
                                 else b.resourceVersion,
              status := if b.status.phase = "" then
                  { phase := "Pending",
                    message := "Resource is being created", reason := "",
                    lastTransitionTime := now }
                else b.status } }) := by
  by_cases h1 : b.objectMeta.uid = "" <;>
    by_cases h2 : b.objectMeta.resourceVersion = 0 <;>
    by_cases h3 : b.objectMeta.status.phase = "" <;>
    by_cases hk : b.typeMeta.kind = "" <;>
    by_cases ha : b.typeMeta.apiVersion = "" <;>
    simp [BaseResource.beforeCreate, BaseResource.validate,
      BaseResource.setStatus, BaseResource.uid, BaseResource.resourceVersion,
      BaseResource.status, BaseResource.kind, BaseResource.apiVersion,
      BaseResource.id, h1, h2, h3, hk, ha]

/-- C7: the contract-level `validate()` fails with a validation error
exactly when `kind` is empty or `apiVersion` is empty, and succeeds when
both are non-empty. -/
theorem c7_contract_validate (b : BaseResource) :
    ((∃ e, b.validate = .error e) ↔ (b.kind = "" ∨ b.apiVersion = "")) ∧
    (b.validate = .ok () ↔ (b.kind ≠ "" ∧ b.apiVersion ≠ "")) := by
  by_cases h1 : b.kind = "" <;> by_cases h2 : b.apiVersion = "" <;>
    simp [BaseResource.validate, h1, h2]

/-- C1: `beforeCreate` assigns the fresh uid exactly when the uid is
empty, sets `resourceVersion` to 1 exactly when it is zero, sets the
"Pending" default status exactly when the phase is unset, then runs
`validate()`; a validation failure is returned as the hook's error
(validation reads only `kind`/`apiVersion`, which the defaults do not
touch), and persistence via the DAO then leaves the store unchanged.
Fresh UUID strings are non-empty, hence the hypothesis on `newUid`. -/
theorem c1_beforeCreate_contract (b : BaseResource) (newUid : String)
    (now : Nat) (huid : newUid ≠ "") :
    (∀ b1, b.beforeCreate newUid now = .ok b1 →
        (b1.uid = if b.uid = "" then newUid else b.uid) ∧
        ((b1.uid ≠ b.uid) ↔ b.uid = "") ∧
        (b1.resourceVersion = if b.resourceVersion = 0 then 1
                              else b.resourceVersion) ∧
        ((b1.resourceVersion ≠ b.resourceVersion) ↔ b.resourceVersion = 0) ∧
        (b1.status = if b.status.phase = "" then
            { phase := "Pending", message := "Resource is being created",
              reason := "", lastTransitionTime := now }
          else b.status) ∧
        ((b1.status ≠ b.status) ↔ b.status.phase = "") ∧
        b1.validate = .ok ()) ∧
    (∀ e, b.beforeCreate newUid now = .error e ↔ b.validate = .error e) ∧
    (∀ e, ∀ s : Store BaseResource, b.beforeCreate newUid now = .error e →
        daoCreateBase s b newUid now = (s, .error (.other e))) := by
  refine ⟨?_, ?_, ?_⟩
  · intro b1 h1
    rw [baseBeforeCreate_spec] at h1
    by_cases hk : b.kind = "" <;> by_cases ha : b.apiVersion = "" <;>
      simp [hk, ha] at h1
    subst h1
    by_cases h1u : b.uid = "" <;> by_cases h1v : b.resourceVersion = 0 <;>
      by_cases h1p : b.status.phase = "" <;>
      simp_all [BaseResource.uid, BaseResource.resourceVersion,
        BaseResource.status, BaseResource.validate, BaseResource.kind,
        BaseResource.apiVersion]
    all_goals
      intro hcon
      rw [← hcon] at h1p
      simp at h1p
  · intro e
    rw [baseBeforeCreate_spec]
    unfold BaseResource.validate
    by_cases hk : b.kind = "" <;> by_cases ha : b.apiVersion = "" <;>
      simp [hk, ha]
  · intro e s h1
    unfold daoCreateBase
    rw [h1]

/-- Witness for C1: the contract hook at a concrete caller-constructed
resource assigns the uid, version 1 and the "Pending" phase. -/
theorem c1_beforeCreate_contract_witness :
    ("uid-1" : String) ≠ "" ∧
    ∀ b1, bFresh.beforeCreate "uid-1" 5 = .ok b1 →
      b1.uid = "uid-1" ∧ b1.resourceVersion = 1 ∧ b1.status.phase = "Pending" := by
  refine ⟨by decide, fun b1 h1 => ?_⟩
  obtain ⟨hu, -, hv, -, hs, -, -⟩ :=
    (c1_beforeCreate_contract bFresh "uid-1" 5 (by decide)).1 b1 h1
  refine ⟨?_, ?_, ?_⟩
  · rw [hu]; decide
  · rw [hv]; decide
  · rw [hs]; decide


/-- Helper corollary: existential form of `userBeforeCreate_spec`,
exposing the fields the theorems below consume without the record
literal. -/
theorem userBeforeCreate_ex (u : User) (hash : String → String)
    (newUid : String) (now : Nat) :
    ∃ u1, u.beforeCreate hash newUid now = .ok u1 ∧
      u1.kind = "User" ∧ u1.apiVersion = "v1" ∧ u1.id = u.id ∧
      u1.uid = (if u.uid = "" then newUid else u.uid) ∧
      u1.resourceVersion = (if u.resourceVersion = 0 then 1
                            else u.resourceVersion) ∧
      u1.username = u.username ∧ u1.email = u.email ∧
      u1.password = (if strStartsWith "$2a$" u.password then u.password
                     else hash u.password) ∧
      u1.base.validate = .ok () :=
  ⟨_, userBeforeCreate_spec u hash newUid now, rfl, rfl, rfl, rfl, rfl, rfl,
    rfl, rfl,
    by simp [BaseResource.validate, BaseResource.kind, BaseResource.apiVersion]⟩

/-- Helper corollary: existential form of `userBeforeUpdate_spec`. -/
theorem userBeforeUpdate_ex (u : User) (hash : String → String) (now : Nat) :
    ∃ u1, u.beforeUpdate hash now = .ok u1 ∧
      u1.kind = "User" ∧ u1.apiVersion = "v1" ∧ u1.id = u.id ∧
      u1.resourceVersion = u.resourceVersion + 1 ∧
      u1.password = (if strStartsWith "$2a$" u.password then u.password
                     else hash u.password) ∧
      u1.base.validate = .ok () :=
  ⟨_, userBeforeUpdate_spec u hash now, rfl, rfl, rfl, rfl, rfl,
    by simp [BaseResource.validate, BaseResource.kind, BaseResource.apiVersion]⟩

/-- C9: the `User` hooks overwrite `Kind`/`APIVersion` with
"User"/"v1" before validation, for any client-supplied values; both
hooks therefore always succeed, the contract-level validation of their
output holds, and every row a create or update writes carries
`kind = "User"`, `apiVersion = "v1"`. -/
theorem c9_user_hooks_force_type (u : User) (hash : String → String)
    (newUid : String) (now : Nat) (s : Store User) (id : Nat) :
    (∃ u1, u.beforeCreate hash newUid now = .ok u1 ∧
        u1.kind = "User" ∧ u1.apiVersion = "v1" ∧ u1.base.validate = .ok ()) ∧
    (∃ u1, u.beforeUpdate hash now = .ok u1 ∧
        u1.kind = "User" ∧ u1.apiVersion = "v1" ∧ u1.base.validate = .ok ()) ∧
    (∀ u2, (daoCreateUser s u hash newUid now).2 = .ok u2 →
        u2.kind = "User" ∧ u2.apiVersion = "v1") ∧
    (∀ p ∈ (daoCreateUser s u hash newUid now).1.rows,
        p ∈ s.rows ∨ (p.2.kind = "User" ∧ p.2.apiVersion = "v1")) ∧
    (∀ p ∈ (daoUpdateUser s id u hash now).1.rows,
        p ∈ s.rows ∨ (p.2.kind = "User" ∧ p.2.apiVersion = "v1")) := by
  obtain ⟨uc, hceq, hck, hca, -, -, -, -, -, -, hcval⟩ :=
    userBeforeCreate_ex u hash newUid now
  obtain ⟨uu, hueq, huk, hua, -, -, -, huval⟩ := userBeforeUpdate_ex u hash now
  have hdc : daoCreateUser s u hash newUid now = insertUserRow s uc := by
    unfold daoCreateUser
    rw [hceq]
  have hdu : daoUpdateUser s id u hash now = applyUserUpdate s id uu := by
    unfold daoUpdateUser
    rw [hueq]
  refine ⟨⟨uc, hceq, hck, hca, hcval⟩, ⟨uu, hueq, huk, hua, huval⟩, ?_, ?_, ?_⟩
  · intro u2 h2
    rw [hdc] at h2
    simp only [insertUserRow, insertUserRowAt] at h2
    split at h2 <;> split at h2 <;> simp at h2 <;>
      (subst h2; exact ⟨hck, hca⟩)
  · intro p hp
    rw [hdc] at hp
    simp only [insertUserRow, insertUserRowAt] at hp
    split at hp <;> split at hp
    all_goals
      first
      | exact .inl hp
      | (rcases List.mem_append.1 hp with hmem | hmem
         · exact .inl hmem
         · simp at hmem
           subst hmem
           exact .inr ⟨hck, hca⟩)
  · intro p hp
    rw [hdu] at hp
    simp only [applyUserUpdate] at hp
    split at hp
    · exact .inl hp
    · rcases List.mem_map.1 hp with ⟨r, hr, hrp⟩
      subst hrp
      split
      · right
        constructor
        · show (if uu.kind = "" then r.2.kind else uu.kind) = "User"
          rw [huk]
          simp
        · show (if uu.apiVersion = "" then r.2.apiVersion else uu.apiVersion) = "v1"
          rw [hua]
          simp
      · exact .inl hr

/-- Witness for C9 at a concrete payload whose client-supplied kind and
apiVersion are empty: the create hook still succeeds and forces the
type descriptor. -/
theorem c9_user_hooks_force_type_witness :
    ∃ u1, uShortName.beforeCreate hash0 "uid-2" 6 = .ok u1 ∧
      u1.kind = "User" ∧ u1.apiVersion = "v1" ∧ u1.base.validate = .ok () :=
  (c9_user_hooks_force_type uShortName hash0 "uid-2" 6 emptyStore 1).1

/-- C10: password hashing in the `User` hooks is idempotent.  Both hooks
leave a password already carrying the `"$2a$"` prefix unchanged and
replace any other password by `hash` of it; provided bcrypt output
carries the `"$2a$"` prefix (hypothesis on the collaborator), the hook
output always carries the prefix, so a second hook run — any later run —
leaves the password unchanged. -/
theorem c10_password_hash_idempotent (u : User) (hash : String → String)
    (newUid newUid2 : String) (now now2 : Nat)
    (hh : ∀ p, strStartsWith "$2a$" (hash p) = true) :
    (∃ u1, u.beforeCreate hash newUid now = .ok u1 ∧
        u1.password = (if strStartsWith "$2a$" u.password then u.password
                       else hash u.password) ∧
        strStartsWith "$2a$" u1.password = true ∧
        (∃ u2, u1.beforeCreate hash newUid2 now2 = .ok u2 ∧
            u2.password = u1.password) ∧
        (∃ u2, u1.beforeUpdate hash now2 = .ok u2 ∧
            u2.password = u1.password)) ∧
    (∃ u1, u.beforeUpdate hash now = .ok u1 ∧
        u1.password = (if strStartsWith "$2a$" u.password then u.password
                       else hash u.password) ∧
        strStartsWith "$2a$" u1.password = true ∧
        (∃ u2, u1.beforeUpdate hash now2 = .ok u2 ∧
            u2.password = u1.password)) := by
  have hstep : ∀ p,
      strStartsWith "$2a$" (if strStartsWith "$2a$" p then p else hash p) = true := by
    intro p
    cases hp : strStartsWith "$2a$" p
    · simpa [hp] using hh p
    · simp [hp]
  constructor
  · obtain ⟨u1, heq, -, -, -, -, -, -, -, hpw, -⟩ :=
      userBeforeCreate_ex u hash newUid now
    have h1 : strStartsWith "$2a$" u1.password = true := by
      rw [hpw]
      exact hstep u.password
    refine ⟨u1, heq, hpw, h1, ?_, ?_⟩
    · obtain ⟨u2, heq2, -, -, -, -, -, -, -, hpw2, -⟩ :=
        userBeforeCreate_ex u1 hash newUid2 now2
      refine ⟨u2, heq2, ?_⟩
      rw [hpw2]
      simp [h1]
    · obtain ⟨u2, heq2, -, -, -, -, hpw2, -⟩ :=
        userBeforeUpdate_ex u1 hash now2
      refine ⟨u2, heq2, ?_⟩
      rw [hpw2]
      simp [h1]
  · obtain ⟨u1, heq, -, -, -, -, hpw, -⟩ := userBeforeUpdate_ex u hash now
    have h1 : strStartsWith "$2a$" u1.password = true := by
      rw [hpw]
      exact hstep u.password
    refine ⟨u1, heq, hpw, h1, ?_⟩
    obtain ⟨u2, heq2, -, -, -, -, hpw2, -⟩ := userBeforeUpdate_ex u1 hash now2
    refine ⟨u2, heq2, ?_⟩
    rw [hpw2]
    simp [h1]

/-- Witness for C10 with a concrete constant hashing collaborator and
an unhashed concrete password. -/
theorem c10_password_hash_idempotent_witness :
    ∃ u1, uShortName.beforeCreate hash0 "uid-3" 6 = .ok u1 ∧
      u1.password = (if strStartsWith "$2a$" uShortName.password
                     then uShortName.password
                     else hash0 uShortName.password) ∧
      strStartsWith "$2a$" u1.password = true ∧
      (∃ u2, u1.beforeCreate hash0 "uid-4" 8 = .ok u2 ∧
          u2.password = u1.password) ∧
      (∃ u2, u1.beforeUpdate hash0 8 = .ok u2 ∧
          u2.password = u1.password) :=
  (c10_password_hash_idempotent uShortName hash0 "uid-3" "uid-4" 6 8
    (fun _ => show strStartsWith "$2a$" "$2a$stubhash" = true by decide)).1

/-- C3: `get`, `update` and `delete` on an identifier with no matching
row all fail with `gorm.ErrRecordNotFound` — never any other store
error — and leave the store exactly as it was (no writes). -/
theorem c3_missing_id_not_found (s : Store User) (id : Nat) (sub : User)
    (hash : String → String) (now : Nat)
    (habsent : ∀ p ∈ s.rows, p.1 ≠ id) :
    daoGetUser s id = .error .recordNotFound ∧
    daoUpdateUser s id sub hash now = (s, .error .recordNotFound) ∧
    daoDeleteUser s id now = (s, .error .recordNotFound) := by
  refine ⟨?_, ?_, ?_⟩
  · have hfind : s.rows.find? (fun r => decide (r.1 = id)) = none :=
      List.find?_eq_none.2 (fun p hp => by simpa using habsent p hp)
    unfold daoGetUser Store.find?
    rw [hfind]
    rfl
  · obtain ⟨uu, hueq, -, -, -, -, -, -⟩ := userBeforeUpdate_ex sub hash now
    have hdu : daoUpdateUser s id sub hash now = applyUserUpdate s id uu := by
      unfold daoUpdateUser
      rw [hueq]
    rw [hdu]
    unfold applyUserUpdate
    simp [updCond]
    intro x y hmem hxid
    exact absurd hxid (habsent (x, y) hmem)
  · have hc : s.rows.countP (fun r => decide (r.1 = id)) = 0 := by
      rw [List.countP_eq_zero]
      intro a ha
      simpa using habsent a ha
    unfold daoDeleteUser
    simp [User.beforeDelete, BaseResource.beforeDelete, BaseResource.setStatus,
      hc]

/-- Witness for C3 at a concrete store and an id absent from it. -/
theorem c3_missing_id_not_found_witness :
    daoGetUser storeAB 99 = .error .recordNotFound ∧
    daoUpdateUser storeAB 99 subVersionZero hash0 7 =
      (storeAB, .error .recordNotFound) ∧
    daoDeleteUser storeAB 99 7 = (storeAB, .error .recordNotFound) :=
  c3_missing_id_not_found storeAB 99 subVersionZero hash0 7 (by decide)

/-- C2 counterexample: an update can decrease the persisted
`resourceVersion`.  The row with id 1 is persisted at version 5; a
client submits an update payload whose `resourceVersion` is 0 (it does
not echo the persisted version); the update succeeds and the persisted
version becomes 0 + 1 = 1 — neither an increment by exactly 1 nor
non-decreasing. -/
theorem c2_version_decrease_counterexample :
    rvAt storeAB 1 = some 5 ∧
    (daoUpdateUser storeAB 1 subVersionZero hash0 9).2 = .ok () ∧
    rvAt (daoUpdateUser storeAB 1 subVersionZero hash0 9).1 1 = some 1 := by
  decide

/-- C2 (amended): a successful `DAO.Update` sets the persisted
`resourceVersion` of the targeted row to the submitted resource's
version + 1, except in the degenerate case where that sum is 0
(submitted version -1): the incremented value is then a zero column that
GORM `Updates` skips, leaving the persisted version unchanged.  The
persisted version therefore increments by exactly 1 only when the client
submits the currently persisted version; a failed update leaves the
store, hence the persisted version, unchanged. -/
theorem c2_update_version (s : Store User) (id : Nat) (sub : User)
    (hash : String → String) (now : Nat) :
    ((daoUpdateUser s id sub hash now).2 = .ok () →
        rvAt (daoUpdateUser s id sub hash now).1 id =
          (if sub.resourceVersion + 1 = 0 then rvAt s id
           else some (sub.resourceVersion + 1))) ∧
    (sub.resourceVersion + 1 ≠ 0 →
        (daoUpdateUser s id sub hash now).2 = .ok () →
        ∀ p ∈ (daoUpdateUser s id sub hash now).1.rows, p.1 = id →
          p.2.resourceVersion = sub.resourceVersion + 1) ∧
    (∀ e, (daoUpdateUser s id sub hash now).2 = .error e →
        (daoUpdateUser s id sub hash now).1 = s) := by
  obtain ⟨uu, hueq, -, -, -, hver, -, -⟩ := userBeforeUpdate_ex sub hash now
  have hdu : daoUpdateUser s id sub hash now = applyUserUpdate s id uu := by
    unfold daoUpdateUser
    rw [hueq]
  rw [hdu]
  simp only [applyUserUpdate]
  by_cases hcnt : s.rows.countP (updCond id uu) = 0
  · rw [if_pos hcnt]
    exact ⟨fun hok => absurd hok (by simp),
           fun _ hok => absurd hok (by simp),
           fun e _ => rfl⟩
  · rw [if_neg hcnt]
    obtain ⟨r0, hr0mem, hr0⟩ := List.countP_pos_iff.1 (Nat.pos_of_ne_zero hcnt)
    simp only [updCond, decide_eq_true_eq] at hr0
    have hkey : uu.id = 0 ∨ uu.id = id := by
      rcases hr0 with ⟨h1, h2⟩
      rw [h1] at h2
      exact h2
    refine ⟨?_, ?_, ?_⟩
    · intro _
      unfold rvAt Store.find?
      dsimp only
      rw [List.find?_map]
      have hpf : ((fun r : Nat × User => decide (r.1 = id)) ∘
          (fun r => if updCond id uu r = true then (r.1, mergeUser r.2 uu)
                    else r)) = (fun r : Nat × User => decide (r.1 = id)) := by
        funext r
        by_cases hc : updCond id uu r = true
        · simp [Function.comp, hc]
        · simp [Function.comp, hc]
      rw [hpf]
      cases hf : s.rows.find? (fun r => decide (r.1 = id)) with
      | none =>
        rw [List.find?_eq_none] at hf
        exact absurd (by simp [hr0.1]) (hf r0 hr0mem)
      | some r1 =>
        have hr1id : r1.1 = id := by simpa using List.find?_some hf
        have hcond : updCond id uu r1 = true := by
          simp only [updCond, decide_eq_true_eq]
          exact ⟨hr1id, by rw [hr1id]; exact hkey⟩
        simp only [Option.map_some']
        rw [if_pos hcond]
        by_cases hz : sub.resourceVersion + 1 = 0
        · rw [if_pos hz]
          show some (if uu.resourceVersion = 0 then r1.2.resourceVersion
              else uu.resourceVersion) = some r1.2.resourceVersion
          rw [hver, if_pos hz]
        · rw [if_neg hz]
          show some (if uu.resourceVersion = 0 then r1.2.resourceVersion
              else uu.resourceVersion) = some (sub.resourceVersion + 1)
          rw [hver, if_neg hz]
    · intro hrv _ p hp hpid
      rcases List.mem_map.1 hp with ⟨r, hr, hrp⟩
      split at hrp
      · rw [← hrp] at hpid ⊢
        show (if uu.resourceVersion = 0 then r.2.resourceVersion
              else uu.resourceVersion) = sub.resourceVersion + 1
        rw [hver, if_neg hrv]
      · rw [← hrp] at hpid
        rename_i hc
        simp only [updCond, decide_eq_true_eq] at hc
        push_neg at hc
        rcases hkey with h | h
        · exact absurd h (hc hpid).1
        · exact absurd (h.trans hpid.symm) (hc hpid).2
    · intro e he
      exact absurd he (by simp)

/-- Witness for C2 (amended): the client echoes the persisted version 5
and the update bumps the row to 6 = 5 + 1. -/
theorem c2_update_version_witness :
    rvAt storeAB 1 = some 5 ∧
    rvAt (daoUpdateUser storeAB 1 uAlice hash0 9).1 1 = some 6 := by
  refine ⟨by decide, ?_⟩
  rw [(c2_update_version storeAB 1 uAlice hash0 9).1 (by decide)]
  decide

/-- C6: for `page ≥ 1` and `pageSize ≥ 0` (the degenerate negative page
size is an implementer-defined case the specification excludes),
`DAO.List` returns the slice of the matching rows starting at offset
`(page-1)*pageSize`, limited to `pageSize`, together with the total
count of matching rows ignoring pagination — identical on every page —
and a page beyond the data yields the empty slice with no error. -/
theorem c6_pagination (s : Store User) (page pageSize : Int)
    (f : Option (List (String × String)))
    (hp : 1 ≤ page) (hs : 0 ≤ pageSize)
    (hf : ∀ fs, f = some fs →
        fs.all (fun kv => knownUserColumn kv.1) = true) :
    daoListUser s page pageSize f = .ok
      (((listedUsers s f).drop ((page - 1) * pageSize).toNat).take
          pageSize.toNat,
        ((listedUsers s f).length : Int)) ∧
    ((listedUsers s f).length ≤ ((page - 1) * pageSize).toNat →
      ((listedUsers s f).drop ((page - 1) * pageSize).toNat).take
          pageSize.toNat = []) := by
  have hgp : ∀ l : List User, gormPage l page pageSize =
      .ok ((l.drop ((page - 1) * pageSize).toNat).take pageSize.toNat) := by
    intro l
    simp only [gormPage]
    have hnn : ¬ pageSize < 0 := by omega
    rw [if_neg hnn]
    by_cases hoff : 0 < (page - 1) * pageSize
    · rw [if_pos hoff]
    · rw [if_neg hoff]
      have h0 : ((page - 1) * pageSize).toNat = 0 := by omega
      rw [h0, List.drop_zero]
  constructor
  · cases f with
    | none =>
      simp only [daoListUser, listedUsers, allUsers]
      rw [hgp]
    | some fs =>
      have hk := hf fs rfl
      simp only [daoListUser, listedUsers, matchingUsers]
      rw [if_pos hk, hgp]
  · intro hbeyond
    rw [List.drop_eq_nil_of_le hbeyond]
    simp

/-- Witness for C6: page 2 of size 1 over the two-row store returns the
second row, with total 2. -/
theorem c6_pagination_witness :
    (1 : Int) ≤ 2 ∧ (0 : Int) ≤ 1 ∧
    daoListUser storeAB 2 1 none = .ok ([uBob], 2) := by
  refine ⟨by decide, by decide, ?_⟩
  rw [(c6_pagination storeAB 2 1 none (by decide) (by decide)
    (fun fs hfs => nomatch hfs)).1]
  decide

/-- C5 counterexample: the `Router.List` handler does not apply query
filters.  With two persisted users and the query `?username=alice`, the
response is 200 but contains `uBob` as well, whose username does not
match the filter value. -/
theorem c5_router_ignores_filters_counterexample :
    routerListU storeAB [("username", ["alice"])] =
      (200, some [uAlice, uBob]) ∧
    uBob.username ≠ "alice" := by
  decide

/-- C5 (amended): the two list handlers disagree about filters.  For a
request whose parsed `page` is at least 1 and parsed `size` is
non-negative, the `RegisterResource` list handler applies every query
parameter other than `page`/`size` as an exact-match filter and answers
200 with the matching items and their unpaginated total; the
`Router.List` handler ignores those parameters entirely and answers 200
with the unfiltered page.  (A positive offset combined with a negative
size is a SQL error — 500 on both paths — hence the page/size
hypotheses.) -/
theorem c5_list_filters (s : Store User) (query : List (String × List String))
    (hknown : (filtersOfQuery query).all
        (fun kv => knownUserColumn kv.1) = true)
    (hp : 1 ≤ atoiOr0 (queryValue query "page" "1"))
    (hs : 0 ≤ atoiOr0 (queryValue query "size" "10")) :
    registerListU s query = (200, some
      { items := pageSlice (matchingUsers s (filtersOfQuery query))
          (atoiOr0 (queryValue query "page" "1"))
          (atoiOr0 (queryValue query "size" "10")),
        total := ((matchingUsers s (filtersOfQuery query)).length : Int),
        page := atoiOr0 (queryValue query "page" "1"),
        size := atoiOr0 (queryValue query "size" "10") }) ∧
    routerListU s query = (200, some
      (pageSlice (allUsers s) (atoiOr0 (queryValue query "page" "1"))
        (atoiOr0 (queryValue query "size" "10")))) := by
  have hgp : ∀ l : List User,
      gormPage l (atoiOr0 (queryValue query "page" "1"))
        (atoiOr0 (queryValue query "size" "10")) =
      .ok (pageSlice l (atoiOr0 (queryValue query "page" "1"))
        (atoiOr0 (queryValue query "size" "10"))) := by
    intro l
    simp only [gormPage, pageSlice]
    have hnn : ¬ atoiOr0 (queryValue query "size" "10") < 0 := by omega
    rw [if_neg hnn]
    by_cases hoff : 0 < (atoiOr0 (queryValue query "page" "1") - 1) *
        atoiOr0 (queryValue query "size" "10")
    · rw [if_pos hoff]
    · rw [if_neg hoff]
      have h0 : ((atoiOr0 (queryValue query "page" "1") - 1) *
          atoiOr0 (queryValue query "size" "10")).toNat = 0 := by omega
      rw [h0, List.drop_zero]
  constructor
  · simp only [registerListU, daoListUser]
    rw [if_pos hknown, hgp]
    rfl
  · simp only [routerListU, daoListUser]
    rw [hgp]
    rfl

/-- Witness for C5 (amended): the filter `username=alice` on the
two-row store selects exactly the matching row on the enveloped path,
with the default page 1 and size 10. -/
theorem c5_list_filters_witness :
    ((filtersOfQuery [("username", ["alice"])]).all
        (fun kv => knownUserColumn kv.1) = true) ∧
    (1 ≤ atoiOr0 (queryValue [("username", ["alice"])] "page" "1")) ∧
    (0 ≤ atoiOr0 (queryValue [("username", ["alice"])] "size" "10")) ∧
    registerListU storeAB [("username", ["alice"])] = (200, some
      { items := [uAlice], total := 1, page := 1, size := 10 }) := by
  refine ⟨by decide, by decide, by decide, ?_⟩
  rw [(c5_list_filters storeAB [("username", ["alice"])] (by decide)
    (by decide) (by decide)).1]
  decide

/-- Helper lemma: a failing row write leaves the store unchanged. -/
theorem insertUserRowAt_error_fst (s : Store User) (u1 : User) (id : Nat)
    (e : DBError) (he : (insertUserRowAt s u1 id).2 = .error e) :
    (insertUserRowAt s u1 id).1 = s := by
  unfold insertUserRowAt at he ⊢
  by_cases hdup : (s.rows.any (fun r => decide (r.1 = id) ||
      decide (r.2.username = u1.username) ||
      decide (r.2.email = u1.email))) = true
  · rw [if_pos hdup]
  · rw [if_neg hdup] at he
    simp at he

/-- Helper lemma: a failing `DAO.Create` leaves the store unchanged. -/
theorem daoCreateUser_error_fst (s : Store User) (u : User)
    (hash : String → String) (newUid : String) (now : Nat) (e : DBError)
    (he : (daoCreateUser s u hash newUid now).2 = .error e) :
    (daoCreateUser s u hash newUid now).1 = s := by
  obtain ⟨u1, heq, -, -, -, -, -, -, -, -, -⟩ :=
    userBeforeCreate_ex u hash newUid now
  have hd : daoCreateUser s u hash newUid now =
      insertUserRowAt s u1 (if u1.id = 0 then s.nextId else u1.id) := by
    unfold daoCreateUser insertUserRow
    rw [heq]
  rw [hd] at he ⊢
  exact insertUserRowAt_error_fst _ _ _ _ he

/-- Helper lemma: a failing UPDATE row write leaves the store
unchanged. -/
theorem applyUserUpdate_error_fst (s : Store User) (id : Nat) (sub1 : User)
    (e : DBError) (he : (applyUserUpdate s id sub1).2 = .error e) :
    (applyUserUpdate s id sub1).1 = s := by
  unfold applyUserUpdate at he ⊢
  by_cases hcnt : s.rows.countP (updCond id sub1) = 0
  · rw [if_pos hcnt]
  · rw [if_neg hcnt] at he
    simp at he

/-- Helper lemma: a failing `DAO.Update` leaves the store unchanged. -/
theorem daoUpdateUser_error_fst (s : Store User) (id : Nat) (sub : User)
    (hash : String → String) (now : Nat) (e : DBError)
    (he : (daoUpdateUser s id sub hash now).2 = .error e) :
    (daoUpdateUser s id sub hash now).1 = s := by
  obtain ⟨uu, hueq, -, -, -, -, -, -⟩ := userBeforeUpdate_ex sub hash now
  have hd : daoUpdateUser s id sub hash now = applyUserUpdate s id uu := by
    unfold daoUpdateUser
    rw [hueq]
  rw [hd] at he ⊢
  exact applyUserUpdate_error_fst _ _ _ _ he

/-- C4 counterexample: a payload that fails domain validation is not
rejected with 400 and is fully applied on the `RegisterResource` create
path.  `uShortName` fails `User.Validate` (username shorter than 3
characters), yet the POST handler — which never invokes `Validate` —
answers 201 and persists the row. -/
theorem c4_validation_counterexample :
    uShortName.validate =
      .error "username must be at least 3 characters long" ∧
    (registerCreateU emptyStore (some uShortName) hash0 "uid-9" 7).1 = 201 ∧
    (registerCreateU emptyStore (some uShortName) hash0 "uid-9" 7).2.rows.length = 1 := by
  decide

/-- C4 (amended): a payload failing `Validate` yields 400 with no write
on the `Router.Create` path, which is the only create/update handler
that invokes `Validate`; `Router.Update` and both `RegisterResource`
handlers do not invoke it (a binding-valid payload that fails `Validate`
can be persisted with 2xx, see the counterexample), but no request is
ever partially applied on any of the four paths: every non-success
response leaves the store unchanged. -/
theorem c4_validation_mapping (s : Store User) (body : Option User)
    (idSeg : String) (bodyMerge : Option (User → User))
    (hash : String → String) (newUid : String) (now : Nat) :
    (∀ u e, body = some u → u.validate = .error e →
        routerCreateU s body hash newUid now = (400, s)) ∧
    ((routerCreateU s body hash newUid now).1 ≠ 201 →
        (routerCreateU s body hash newUid now).2 = s) ∧
    ((registerCreateU s body hash newUid now).1 ≠ 201 →
        (registerCreateU s body hash newUid now).2 = s) ∧
    ((routerUpdateU s idSeg body hash now).1 ≠ 200 →
        (routerUpdateU s idSeg body hash now).2 = s) ∧
    ((registerUpdateU s idSeg bodyMerge hash now).1 ≠ 200 →
        (registerUpdateU s idSeg bodyMerge hash now).2 = s) := by
  refine ⟨?_, ?_, ?_, ?_, ?_⟩
  · intro u e hbody hval
    subst hbody
    simp only [routerCreateU]
    rw [hval]
  · intro hne
    cases body with
    | none => rfl
    | some u =>
      simp only [routerCreateU] at hne ⊢
      revert hne
      cases hval : u.validate with
      | error e =>
        intro _
        rfl
      | ok _ =>
        cases hres : (daoCreateUser s u hash newUid now).2 with
        | error e =>
          intro _
          exact daoCreateUser_error_fst s u hash newUid now e hres
        | ok u2 =>
          intro hne
          exact absurd rfl hne
  · intro hne
    cases body with
    | none => rfl
    | some u =>
      simp only [registerCreateU] at hne ⊢
      revert hne
      cases hres : (daoCreateUser s u hash newUid now).2 with
      | error e =>
        intro _
        exact daoCreateUser_error_fst s u hash newUid now e hres
      | ok u2 =>
        intro hne
        exact absurd rfl hne
  · intro hne
    cases hseg : parseUint idSeg 64 with
    | none =>
      simp only [routerUpdateU]
      rw [hseg]
    | some n =>
      cases body with
      | none =>
        simp only [routerUpdateU]
        rw [hseg]
      | some u =>
        simp only [routerUpdateU] at hne ⊢
        rw [hseg] at hne ⊢
        dsimp only at hne ⊢
        revert hne
        cases hres : (daoUpdateUser s n u hash now).2 with
        | error e =>
          cases e with
          | recordNotFound =>
            intro _
            exact daoUpdateUser_error_fst s n u hash now _ hres
          | other m =>
            intro _
            exact daoUpdateUser_error_fst s n u hash now _ hres
        | ok _ =>
          intro hne
          exact absurd rfl hne
  · intro hne
    cases hseg : parseUint idSeg 32 with
    | none =>
      simp only [registerUpdateU]
      rw [hseg]
    | some n =>
      simp only [registerUpdateU] at hne ⊢
      rw [hseg] at hne ⊢
      dsimp only at hne ⊢
      revert hne
      cases hget : daoGetUser s n with
      | error e =>
        cases e with
        | recordNotFound =>
          intro _
          rfl
        | other m =>
          intro _
          rfl
      | ok obj =>
        cases bodyMerge with
        | none =>
          intro _
          rfl
        | some f =>
          dsimp only
          cases hupd : (f obj).beforeUpdate hash now with
          | error e =>
            intro _
            rfl
          | ok obj1 =>
            intro hne
            exact absurd rfl hne

/-- Witness for C4 (amended): the concrete domain-invalid payload is
rejected with 400 and without any write on the `Router.Create` path. -/
theorem c4_validation_mapping_witness :
    (some uShortName = some uShortName) ∧
    uShortName.validate =
      .error "username must be at least 3 characters long" ∧
    routerCreateU emptyStore (some uShortName) hash0 "uid-9" 7 =
      (400, emptyStore) :=
  ⟨rfl, by decide,
    (c4_validation_mapping emptyStore (some uShortName) "1" none hash0
      "uid-9" 7).1 uShortName "username must be at least 3 characters long"
      rfl (by decide)⟩

/-- C8 counterexample: the decimal numeral for 2^64 denotes a
non-negative integer, yet the Router GET handler answers 400 for it,
because `strconv.ParseUint(_, 10, 64)` also fails on in-syntax values
out of 64-bit range. -/
theorem c8_id_parsing_counterexample :
    ("18446744073709551616".toList ≠ [] ∧
      "18446744073709551616".toList.all Char.isDigit = true) ∧
    (routerGetU storeAB "18446744073709551616").1 = 400 := by
  decide

/-- C8 (amended): a `:id` segment that `ParseUint` rejects — one that is
not a bare decimal numeral, or whose value is out of the parser's range
(2^64 on the `Router` paths, 2^32 on the `RegisterResource` paths) —
yields 400, never 500, on GET/PUT/DELETE; a segment the parser accepts
never produces a 400 from id parsing (PUT can still answer 400 from
body decoding). -/
theorem c8_id_parsing (s : Store User) (idSeg : String) (body : Option User)
    (hash : String → String) (now : Nat) :
    (parseUint idSeg 64 = none →
        (routerGetU s idSeg).1 = 400 ∧
        routerUpdateU s idSeg body hash now = (400, s) ∧
        routerDeleteU s idSeg now = (400, s)) ∧
    (∀ n, parseUint idSeg 64 = some n →
        (routerGetU s idSeg).1 ≠ 400 ∧
        (routerDeleteU s idSeg now).1 ≠ 400 ∧
        ((routerUpdateU s idSeg body hash now).1 = 400 → body = none)) ∧
    (parseUint idSeg 32 = none → (registerGetU s idSeg).1 = 400) ∧
    (∀ n, parseUint idSeg 32 = some n → (registerGetU s idSeg).1 ≠ 400) := by
  refine ⟨?_, ?_, ?_, ?_⟩
  · intro h64
    refine ⟨?_, ?_, ?_⟩ <;>
      simp [routerGetU, routerUpdateU, routerDeleteU, h64]
  · intro n h64
    refine ⟨?_, ?_, ?_⟩
    · simp only [routerGetU]
      rw [h64]
      dsimp only
      cases hg : daoGetUser s n with
      | error e => cases e <;> simp
      | ok u => simp
    · simp only [routerDeleteU]
      rw [h64]
      dsimp only
      cases hd : (daoDeleteUser s n now).2 with
      | error e => cases e <;> simp
      | ok u => simp
    · simp only [routerUpdateU]
      rw [h64]
      dsimp only
      cases body with
      | none =>
        intro _
        rfl
      | some u =>
        dsimp only
        cases hres : (daoUpdateUser s n u hash now).2 with
        | error e =>
          cases e with
          | recordNotFound =>
            intro habs
            simp at habs
          | other m =>
            intro habs
            simp at habs
        | ok _ =>
          intro habs
          simp at habs
  · intro h32
    simp [registerGetU, h32]
  · intro n h32
    simp only [registerGetU]
    rw [h32]
    dsimp only
    cases hg : daoGetUser s n with
    | error e => cases e <;> simp
    | ok u => simp

/-- Witness for C8 (amended): the non-numeral segment "abc" is a 400 on
the Router GET path; the numeral "7" never is. -/
theorem c8_id_parsing_witness :
    (routerGetU storeAB "abc").1 = 400 ∧ (routerGetU storeAB "7").1 ≠ 400 :=
  ⟨((c8_id_parsing storeAB "abc" none hash0 3).1 (by decide)).1,
   ((c8_id_parsing storeAB "7" none hash0 3).2.1 7 (by decide)).1⟩
